import Mathlib

/-!
Verification of the Tibia-NPC-Creator generators.

This file shallowly embeds the two Python scripts of the repository
(`generate_outfits.py` and `generate_npcs.py`) and proves properties of the
embedded code.

Strings are Lean `String`s, but every string operation used by the scripts is
re-implemented structurally over `List Char` so that all definitions compute
inside the kernel.  Python dictionaries are modelled as association lists with
the usual unique-key get / set / setdefault operations; Python `Optional`
values become `Option`; integer parsing that may fail returns `Option Int`.

Unicode-specific behaviour of Python (`str.strip` stripping `\x0b`/`\x0c`,
`str.lower` on non-ASCII letters, percent-decoding in `urllib.parse.parse_qs`,
underscore separators accepted by `int(...)`) is not modelled; none of the
inputs considered in this development exercises it.
-/

namespace TibiaNpc

/-! ## String layer -/

/-- Rebuild a `String` from its character list. -/
def ofChars (l : List Char) : String := ⟨l⟩

/-- Split a character list at every occurrence of `c` (Python `str.split(c)`
without a count). -/
def listSplit (c : Char) : List Char → List Char → List (List Char)
  | [], acc => [acc.reverse]
  | x :: xs, acc =>
      if x = c then acc.reverse :: listSplit c xs []
      else listSplit c xs (x :: acc)

/-- Split a string at every occurrence of the character `c`. -/
def strSplit (c : Char) (s : String) : List String :=
  (listSplit c s.data []).map ofChars

/-- Split a character list at the first occurrence of `c`, returning `none`
when `c` does not occur (Python `str.split(c, 1)` / the `c in s` test). -/
def listSplitFirst (c : Char) : List Char → Option (List Char × List Char)
  | [] => none
  | x :: xs =>
      if x = c then some ([], xs)
      else (listSplitFirst c xs).map (fun p => (x :: p.1, p.2))

/-- Split a string at the first occurrence of `c`. -/
def strSplitFirst (c : Char) (s : String) : Option (String × String) :=
  (listSplitFirst c s.data).map (fun p => (ofChars p.1, ofChars p.2))

/-- Python `str.strip()` (ASCII whitespace). -/
def strTrim (s : String) : String :=
  ofChars ((((s.data.dropWhile Char.isWhitespace).reverse).dropWhile
      Char.isWhitespace).reverse)

/-- Python `str.lower()` (ASCII letters). -/
def strLower (s : String) : String := ofChars (s.data.map Char.toLower)

/-- Does `pat` occur at the start of the list (Python `str.startswith`)? -/
def listStarts : List Char → List Char → Bool
  | [], _ => true
  | _ :: _, [] => false
  | p :: ps, x :: xs => p = x && listStarts ps xs

/-- Python `s.startswith(pat)`. -/
def strStarts (s pat : String) : Bool := listStarts pat.data s.data

/-- Python `s.endswith(pat)`. -/
def strEnds (s pat : String) : Bool := listStarts pat.data.reverse s.data.reverse

/-- Python `s[n:]` (drop the first `n` characters). -/
def strDrop (s : String) (n : Nat) : String := ofChars (s.data.drop n)

/-- Python `s[:-n]` for `n ≤ len(s)` (drop the last `n` characters). -/
def strDropRight (s : String) (n : Nat) : String :=
  ofChars (s.data.take (s.data.length - n))

/-- Drop trailing characters satisfying `p`. -/
def strDropRightWhile (s : String) (p : Char → Bool) : String :=
  ofChars ((s.data.reverse.dropWhile p).reverse)

/-- Python `int(s)`: optional surrounding whitespace, an optional sign and a
nonempty run of decimal digits. -/
def pyInt? (s : String) : Option Int :=
  let t := (strTrim s).data
  let core : Option (Bool × List Char) :=
    match t with
    | '-' :: rest => some (true, rest)
    | '+' :: rest => some (false, rest)
    | rest => some (false, rest)
  match core with
  | some (neg, digits) =>
      if digits ≠ [] ∧ digits.all Char.isDigit then
        let n : Nat := digits.foldl (fun acc c => acc * 10 + (c.toNat - 48)) 0
        some (if neg then -(n : Int) else (n : Int))
      else none
  | none => none

/-! ## Python dict model

Association lists with unique keys (every list built below starts empty and is
only updated through these operations, which keep keys unique). -/

/-- Python `d.get(k)` / `d[k]`. -/
def pyDictGet {κ α : Type} [DecidableEq κ] : List (κ × α) → κ → Option α
  | [], _ => none
  | p :: rest, k => if p.1 = k then some p.2 else pyDictGet rest k

/-- Python `d[k] = v`: replace the binding of `k`, or append a new one. -/
def pyDictSet {κ α : Type} [DecidableEq κ] : List (κ × α) → κ → α → List (κ × α)
  | [], k, v => [(k, v)]
  | p :: rest, k, v =>
      if p.1 = k then (k, v) :: rest else p :: pyDictSet rest k v

/-- Python `d.setdefault(k, v)` restricted to its effect on the mapping:
insert `(k, v)` only when `k` has no binding yet. -/
def pyDictSetdefault {κ α : Type} [DecidableEq κ] :
    List (κ × α) → κ → α → List (κ × α)
  | [], k, v => [(k, v)]
  | p :: rest, k, v =>
      if p.1 = k then p :: rest else p :: pyDictSetdefault rest k v

/-! ## generate_outfits.py: small helpers -/

/-- Source: `normalize_name` (line 19). -/
def normalize_name (name : String) : String := strTrim name

/-- Source: `alt_name_without_npc_suffix` (line 23):
`re.sub(r"\s*\(NPC\)\s*$", "", name).strip()` — remove one trailing
whitespace-padded `(NPC)` qualifier, then strip. -/
def alt_name_without_npc_suffix (name : String) : String :=
  let t := strDropRightWhile name Char.isWhitespace
  strTrim (if strEnds t "(NPC)" then
      strDropRightWhile (strDropRight t 5) Char.isWhitespace
    else name)

/-- Source: `normalize_gender` (line 30). -/
def normalize_gender (flag : Option String) : Option String :=
  match flag with
  | none => none
  | some f =>
      if f = "" then none
      else
        let f := strLower (strTrim f)
        if strStarts f "f" then some "female"
        else if strStarts f "m" then some "male"
        else none

/-- Source: `is_truthy_flag` (line 41). -/
def is_truthy_flag (value : Option String) : Bool :=
  match value with
  | none => false
  | some v =>
      let t := strLower (strTrim v)
      t = "true" || t = "yes" || t = "1" || t = "y"

/-! ## generate_outfits.py: query-string decoder -/

/-- Query component of a URL as in `urllib.parse.urlparse`: the fragment is
everything after the first `#`, the query everything after the first `?` of
what remains. -/
def urlQuery (url : String) : String :=
  let noFrag : List Char :=
    match listSplitFirst '#' url.data with
    | some p => p.1
    | none => url.data
  match listSplitFirst '?' noFrag with
  | some p => ofChars p.2
  | none => ""

/-- Decoded query string as in `urllib.parse.parse_qs` with default options:
split on `&`, keep only fields that contain `=` and have a nonempty value
(blank values and bare keys are dropped), in order. -/
def parse_qs (query : String) : List (String × String) :=
  (strSplit '&' query).filterMap fun field =>
    match strSplitFirst '=' field with
    | none => none
    | some (k, v) => if v = "" then none else some (k, v)

/-- Python `key in qs`. -/
def qsHas (qs : List (String × String)) (k : String) : Bool :=
  qs.any (fun p => p.1 = k)

/-- Python `qs[key][0]` as an option (first value listed for the key). -/
def qsFirst (qs : List (String × String)) (k : String) : Option String :=
  (qs.find? (fun p => p.1 = k)).map (·.2)

/-- Source: the local `get_int` of `parse_outfiter_url` (line 55). -/
def qs_get_int (qs : List (String × String)) (key : String) : Option Int :=
  match qsFirst qs key with
  | none => none
  | some val => if val = "" then none else pyInt? val

/-- The partial appearance descriptor built by the scripts: a Python dict with
keys `type`, `head`, `body`, `legs`, `feet`, `addons`, `sex`, `outfit_id`,
`outfit_name`, each field `none` when the key is absent. -/
structure OutfitInfo where
  type : Option Int
  head : Option Int
  body : Option Int
  legs : Option Int
  feet : Option Int
  addons : Option Nat
  sex : Option String
  outfit_id : Option Int
  outfit_name : Option String
deriving Repr, DecidableEq

/-- The empty descriptor (`result = {}`). -/
def OutfitInfo.empty : OutfitInfo :=
  ⟨none, none, none, none, none, none, none, none, none⟩

/-- Source: `parse_outfiter_url` (line 47). -/
def parse_outfiter_url (url : String) : OutfitInfo :=
  let qs := parse_qs (urlQuery url)
  let addons : Nat :=
    (if qsHas qs "a1" then 1 else 0) ||| (if qsHas qs "a2" then 2 else 0)
  let sex : Option String :=
    if qsHas qs "fm" then some "female"
    else if qsHas qs "f" then normalize_gender (qsFirst qs "f")
    else none
  { type := qs_get_int qs "o"
    head := qs_get_int qs "c1"
    body := qs_get_int qs "c2"
    legs := qs_get_int qs "c3"
    feet := qs_get_int qs "c4"
    addons := some addons
    sex := match sex with
           | some s => if s = "" then none else some s
           | none => none
    outfit_id := none
    outfit_name := none }

/-! ## generate_outfits.py: template parser -/

/-- Point update of a string-keyed parameter map (Python `params[k] = v`). -/
def updateParam (f : String → Option String) (k v : String) :
    String → Option String :=
  fun x => if x = k then some v else f x

/-- Source: `parse_outfitter_template` (line 132).  Returns the parameter
mapping as a lookup function (Python dict access is only ever by key). -/
def parse_outfitter_template (template : String) : String → Option String :=
  let t := strTrim template
  let t := if strStarts t "\x7b\x7b" then strDrop t 2 else t
  let t := if strEnds t "\x7d\x7d" then strDropRight t 2 else t
  let parts := strSplit '|' t
  (parts.drop 1).foldl
    (fun params part =>
      match strSplitFirst '=' part with
      | some (key, value) => updateParam params (strTrim key) (strTrim value)
      | none =>
          if strTrim part ≠ "" then updateParam params (strTrim part) "true"
          else params)
    (fun _ => none)

/-! ## generate_outfits.py: main-loop fusion steps (lines 289-313) -/

/-- Source: the type fallback block of `main` (lines 290-293): if the link had
no `o` parameter and the template has a truthy `outfit` value that parses as
an integer, use it (`ValueError` is suppressed). -/
def fuseType (info : OutfitInfo) (params : String → Option String) : OutfitInfo :=
  match params "outfit", info.type with
  | some t, none =>
      if t ≠ "" then
        match pyInt? t with
        | some n => { info with type := some n }
        | none => info
      else info
  | _, _ => info

/-- Does the template request the given addon bit: key present with a truthy
or empty value (lines 298-303)? -/
def addonFlagSet (params : String → Option String) (key : String) : Bool :=
  match params key with
  | some v => is_truthy_flag (some v) || v = ""
  | none => false

/-- Source: the addon fusion block of `main` (lines 296-303). -/
def fuseAddons (info : OutfitInfo) (params : String → Option String) : OutfitInfo :=
  let info := if info.addons = none then { info with addons := some 0 } else info
  let info :=
    match params "addon1" with
    | some v =>
        if is_truthy_flag (some v) || v = "" then
          { info with addons := info.addons.map (· ||| 1) }
        else info
    | none => info
  match params "addon2" with
  | some v =>
      if is_truthy_flag (some v) || v = "" then
        { info with addons := info.addons.map (· ||| 2) }
      else info
  | none => info

/-- Gender candidate computed by the fallback block (lines 307-311): the
local `sex` after `sex = "female"` (template key `female` truthy or empty) and
`sex = sex or normalize_gender(template_params.get("sex"))`. -/
def templateSex (params : String → Option String) : Option String :=
  match (match params "female" with
         | some v =>
             if is_truthy_flag (some v) || v = "" then some "female" else none
         | none => none) with
  | some s => if s = "" then normalize_gender (params "sex") else some s
  | none => normalize_gender (params "sex")

/-- Source: the gender fallback block of `main` (lines 306-313): template key
`female` (truthy or empty) first, then `sex` through `normalize_gender`; only
when the link produced no gender, and only a truthy answer is stored. -/
def fuseSex (info : OutfitInfo) (params : String → Option String) : OutfitInfo :=
  if info.sex = none then
    match templateSex params with
    | some s => if s = "" then info else { info with sex := some s }
    | none => info
  else info

/-- The three fusion blocks in source order. -/
def fuseTemplate (info : OutfitInfo) (params : String → Option String) : OutfitInfo :=
  fuseSex (fuseAddons (fuseType info params) params) params

/-! ## generate_outfits.py: reference catalogue loader (lines 237-265) -/

/-- Value stored in the `outfits.xml` lookup: `{"outfit_name": ..., "sex": ...}`. -/
structure XmlInfo where
  outfit_name : String
  sex : String
deriving Repr, DecidableEq

/-- An `outfit` element of `outfits.xml`, as seen through `outfit.attrib.get`:
each attribute is present or absent. -/
structure OutfitElem where
  looktype : Option String
  name : Option String
  type : Option String
deriving Repr, DecidableEq

/-- The gender-partitioned ordered lists.  The source initialises the dict
with exactly the keys `"female"` and `"male"` and only ever appends under one
of those two keys, so a two-field structure is a faithful model. -/
structure OrderedLists where
  female : List (Int × XmlInfo)
  male : List (Int × XmlInfo)
deriving Repr, DecidableEq

/-- Python `outfits_xml_order.get(key, [])`. -/
def orderedGet (o : OrderedLists) (k : String) : List (Int × XmlInfo) :=
  if k = "female" then o.female else if k = "male" then o.male else []

/-- One iteration of the loader loop of `load_outfits_xml_lookup`
(lines 251-264): skip when `name` is missing or empty, `looktype` missing,
`type` missing, or `looktype` not an integer; otherwise index the entry and
append it to its gender partition. -/
def loadStep (acc : List (Int × XmlInfo) × OrderedLists) (outfit : OutfitElem) :
    List (Int × XmlInfo) × OrderedLists :=
  match outfit.name, outfit.looktype, outfit.type with
  | some name, some looktype, some sex_type =>
      if name = "" then acc
      else
        let sex := if sex_type = "0" then "female" else "male"
        match pyInt? looktype with
        | none => acc
        | some lt_int =>
            let info : XmlInfo := ⟨strTrim name, sex⟩
            (pyDictSet acc.1 lt_int info,
             if sex = "female" then
               ⟨acc.2.female ++ [(lt_int, info)], acc.2.male⟩
             else
               ⟨acc.2.female, acc.2.male ++ [(lt_int, info)]⟩)
  | _, _, _ => acc

/-- Source: `load_outfits_xml_lookup` (line 237), given the file's `outfit`
elements in file order. -/
def load_outfits_xml_lookup (elems : List OutfitElem) :
    List (Int × XmlInfo) × OrderedLists :=
  elems.foldl loadStep ([], ⟨[], []⟩)

/-! ## generate_outfits.py: resolution engine (lines 268-354) -/

/-- Value of the canonical lookType index built by `build_looktype_map`:
`{"outfit_id": ..., "outfit_name": ..., "sex": ...}`.  The index itself is
network-built; the engine only reads it, so it enters the model as an
abstract lookup function. -/
structure LookupEntry where
  outfit_id : Int
  outfit_name : String
  sex : String
deriving Repr, DecidableEq

/-- Source: `if "sex" not in outfit_info and entry.get("sex"):` followed by
the assignment — copy a gender only when none is set yet and the candidate is
a truthy (nonempty) string. -/
def applySexIfUnset (info : OutfitInfo) (s : String) : OutfitInfo :=
  if info.sex = none ∧ s ≠ "" then { info with sex := some s } else info

/-- Python `if not sex_key: sex_key = "female"` (lines 333-336). -/
def sexKeyOf (sex : Option String) : String :=
  match sex with
  | none => "female"
  | some s => if s = "" then "female" else s

/-- Source: the legacy index heuristic and raw-id fallback (lines 331-346):
read the lookType as a zero-based position into the ordered list of the known
(or female-defaulted) gender; in range, remap the descriptor onto that entry;
out of range, record the raw lookType as `outfit_id`. -/
def ordinalFallback (xo : OrderedLists) (info : OutfitInfo) (looktype : Int) :
    OutfitInfo :=
  match (if 0 ≤ looktype then
      (orderedGet xo (sexKeyOf info.sex)).get? looktype.toNat else none) with
  | some (mapped_lt, mapped_info) =>
      { info with
          type := some mapped_lt
          outfit_id := some mapped_lt
          outfit_name := some mapped_info.outfit_name
          sex := some (sexKeyOf info.sex) }
  | none => { info with outfit_id := some looktype }

/-- Source: the lookType-to-catalogue resolution block of `main`
(lines 315-346): canonical index first, reference catalogue second, ordinal
heuristic last. -/
def resolveLooktype (lm : Int → Option LookupEntry) (xl : Int → Option XmlInfo)
    (xo : OrderedLists) (info : OutfitInfo) : OutfitInfo :=
  match info.type with
  | none => info
  | some looktype =>
      match lm looktype with
      | some lookup =>
          applySexIfUnset
            { info with
                outfit_id := some lookup.outfit_id
                outfit_name := some lookup.outfit_name } lookup.sex
      | none =>
          match xl looktype with
          | some fb =>
              { applySexIfUnset { info with outfit_name := some fb.outfit_name }
                  fb.sex with
                  outfit_id := some looktype }
          | none => ordinalFallback xo info looktype

/-- Source: href normalisation in `main` (lines 280-283). -/
def normalizeHref (href : String) : String :=
  if strStarts href "//" then "https:" ++ href
  else if strStarts href "/" then "https://tibia.fandom.com" ++ href
  else href

/-- The descriptor `main` computes for one row (lines 280-346): decode the
normalised link, fuse the template parameters, resolve the lookType. -/
def rowDescriptor (lm : Int → Option LookupEntry) (xl : Int → Option XmlInfo)
    (xo : OrderedLists) (href template_str : String) : OutfitInfo :=
  resolveLooktype lm xl xo
    (fuseTemplate (parse_outfiter_url (normalizeHref href))
      (parse_outfitter_template template_str))

/-- Source: one iteration of the row loop of `main` (lines 275-354): skip
rows with an empty link, store the descriptor under the exact name
(overwriting), and `setdefault` it under the `(NPC)`-stripped alias when that
alias is nonempty and different. -/
def processRow (lm : Int → Option LookupEntry) (xl : Int → Option XmlInfo)
    (xo : OrderedLists) (outfits : List (String × OutfitInfo))
    (row : String × String × String) : List (String × OutfitInfo) :=
  let npc_name := row.1
  let href := row.2.1
  let template_str := row.2.2
  if href = "" then outfits
  else
    let outfit_info := rowDescriptor lm xl xo href template_str
    let outfits := pyDictSet outfits npc_name outfit_info
    let alt := alt_name_without_npc_suffix npc_name
    if alt ≠ "" ∧ alt ≠ npc_name then pyDictSetdefault outfits alt outfit_info
    else outfits

/-- Source: the whole row loop of `main` over the scraped rows, starting from
the empty `outfits` dict. -/
def runRows (lm : Int → Option LookupEntry) (xl : Int → Option XmlInfo)
    (xo : OrderedLists) (rows : List (String × String × String)) :
    List (String × OutfitInfo) :=
  rows.foldl (processRow lm xl xo) []

/-! ## generate_npcs.py: shop-offer processing (lines 281-325) -/

/-- A buy/sell offer row of the local dataset (`offer.item_id`,
`offer.item_title`, `offer.value`). -/
structure Offer where
  item_id : Int
  item_title : String
  value : Int
deriving Repr, DecidableEq

/-- The fields of an `Item` record read by the generator. -/
structure Item where
  actual_name : Option String
  name : Option String
  client_id : Option Int
deriving Repr, DecidableEq

/-- Python `a or b` on an optional string against a string default. -/
def pyOrStr (a : Option String) (b : String) : String :=
  match a with
  | some s => if s = "" then b else s
  | none => b

/-- Source: `(item.actual_name or item.name or offer.item_title).lower()`
(lines 306 and 314). -/
def itemName (item : Item) (offer : Offer) : String :=
  strLower (pyOrStr item.actual_name (pyOrStr item.name offer.item_title))

/-- Source: one iteration of an offer loop of `main` (lines 302-307 and
310-315): look the item up by `article_id`; skip the offer when the item is
missing or has no `client_id`; otherwise append `(name, client_id, price)`. -/
def shopStep (findItem : Int → Option Item)
    (entries : List (String × Int × Int)) (offer : Offer) :
    List (String × Int × Int) :=
  match findItem offer.item_id with
  | none => entries
  | some item =>
      match item.client_id with
      | none => entries
      | some cid => entries ++ [(itemName item offer, cid, offer.value)]

/-- Source: a whole offer loop of `main` starting from the empty entry list. -/
def buildShopEntries (findItem : Int → Option Item) (offers : List Offer) :
    List (String × Int × Int) :=
  offers.foldl (shopStep findItem) []

/-- The offer lists of one NPC (`npc.sell_offers`, `npc.buy_offers`; either
may be `None`). -/
structure NpcRec where
  sell_offers : Option (List Offer)
  buy_offers : Option (List Offer)
deriving Repr, DecidableEq

/-- What one iteration of the NPC loop produces (lines 295-325): the two shop
lists and which files are written.  `create_npc_xml` and `create_lua_script`
are called unconditionally; `create_shop_xml` only when a shop entry exists. -/
structure NpcOutput where
  buyable : List (String × Int × Int)
  sellable : List (String × Int × Int)
  has_shop : Bool
  wrote_npc_xml : Bool
  wrote_shop_xml : Bool
  wrote_lua : Bool
deriving Repr, DecidableEq

/-- Source: the per-NPC body of `main` of `generate_npcs.py` restricted to
offer processing and artifact production (lines 295-325). -/
def processNpcOffers (findItem : Int → Option Item) (npc : NpcRec) : NpcOutput :=
  let buyable := buildShopEntries findItem (npc.sell_offers.getD [])
  let sellable := buildShopEntries findItem (npc.buy_offers.getD [])
  let has_shop := !buyable.isEmpty || !sellable.isEmpty
  { buyable := buyable
    sellable := sellable
    has_shop := has_shop
    wrote_npc_xml := true
    wrote_shop_xml := has_shop
    wrote_lua := true }

/-! ## Helper lemmas -/

theorem pyDictGet_set {κ α : Type} [DecidableEq κ] (d : List (κ × α)) (k k' : κ)
    (v : α) :
    pyDictGet (pyDictSet d k v) k' = if k = k' then some v else pyDictGet d k' := by
  induction d with
  | nil => simp [pyDictSet, pyDictGet]
  | cons p rest ih =>
      by_cases hp : p.1 = k
      · by_cases hk : k = k'
        · simp [pyDictSet, pyDictGet, hp, hk]
        · have hpk' : ¬ p.1 = k' := fun hh => hk (hp.symm.trans hh)
          simp [pyDictSet, pyDictGet, hp, hk, hpk']
      · by_cases hpk' : p.1 = k'
        · have hk : ¬ k = k' := fun hh => hp (hpk'.trans hh.symm)
          simp [pyDictSet, pyDictGet, hp, hpk', hk,
            show ¬ k' = k from fun hh => hk hh.symm]
        · simp [pyDictSet, pyDictGet, hp, hpk', ih]

theorem pyDictGet_setdefault_self {κ α : Type} [DecidableEq κ]
    (d : List (κ × α)) (k : κ) (v : α) :
    pyDictGet (pyDictSetdefault d k v) k = some ((pyDictGet d k).getD v) := by
  induction d with
  | nil => simp [pyDictSetdefault, pyDictGet]
  | cons p rest ih =>
      by_cases hp : p.1 = k <;> simp [pyDictSetdefault, pyDictGet, hp, ih]

theorem pyDictGet_setdefault_ne {κ α : Type} [DecidableEq κ]
    (d : List (κ × α)) (k k' : κ) (v : α) (h : k' ≠ k) :
    pyDictGet (pyDictSetdefault d k v) k' = pyDictGet d k' := by
  induction d with
  | nil =>
      simp [pyDictSetdefault, pyDictGet, show ¬ k = k' from fun hh => h hh.symm]
  | cons p rest ih =>
      by_cases hp : p.1 = k
      · simp [pyDictSetdefault, hp]
      · by_cases hk : p.1 = k' <;>
          simp [pyDictSetdefault, pyDictGet, hp, hk, ih, h]

theorem mem_pyDictSet {κ α : Type} [DecidableEq κ] {d : List (κ × α)} {k : κ}
    {v : α} {p : κ × α} (h : p ∈ pyDictSet d k v) : p ∈ d ∨ p = (k, v) := by
  induction d with
  | nil => simpa [pyDictSet] using h
  | cons q rest ih =>
      by_cases hq : q.1 = k
      · simp only [pyDictSet, hq, if_pos, List.mem_cons] at h
        rcases h with h | h
        · right; simpa using h
        · left; exact List.mem_cons_of_mem _ h
      · simp only [pyDictSet, hq, if_neg, not_false_iff, List.mem_cons] at h
        rcases h with h | h
        · left; exact h ▸ List.mem_cons_self _ _
        · rcases ih h with h' | h'
          · left; exact List.mem_cons_of_mem _ h'
          · right; exact h'

theorem mem_pyDictSetdefault {κ α : Type} [DecidableEq κ] {d : List (κ × α)}
    {k : κ} {v : α} {p : κ × α} (h : p ∈ pyDictSetdefault d k v) :
    p ∈ d ∨ p = (k, v) := by
  induction d with
  | nil => simpa [pyDictSetdefault] using h
  | cons q rest ih =>
      by_cases hq : q.1 = k
      · simp only [pyDictSetdefault, hq, if_pos] at h
        left; exact h
      · simp only [pyDictSetdefault, hq, if_neg, not_false_iff,
          List.mem_cons] at h
        rcases h with h | h
        · left; exact h ▸ List.mem_cons_self _ _
        · rcases ih h with h' | h'
          · left; exact List.mem_cons_of_mem _ h'
          · right; exact h'

theorem pyDictGet_mem {κ α : Type} [DecidableEq κ] {d : List (κ × α)} {k : κ}
    {x : α} (h : pyDictGet d k = some x) : ∃ p ∈ d, p.2 = x := by
  induction d with
  | nil => simp [pyDictGet] at h
  | cons q rest ih =>
      by_cases hq : q.1 = k
      · have hx : q.2 = x := by simpa [pyDictGet, hq] using h
        exact ⟨q, List.mem_cons_self _ _, hx⟩
      · rcases ih (by simpa [pyDictGet, hq] using h) with ⟨p, hp, hx⟩
        exact ⟨p, List.mem_cons_of_mem _ hp, hx⟩

@[simp] theorem applySexIfUnset_type (info : OutfitInfo) (s : String) :
    (applySexIfUnset info s).type = info.type := by
  unfold applySexIfUnset; split <;> rfl

@[simp] theorem applySexIfUnset_addons (info : OutfitInfo) (s : String) :
    (applySexIfUnset info s).addons = info.addons := by
  unfold applySexIfUnset; split <;> rfl

@[simp] theorem applySexIfUnset_outfit_id (info : OutfitInfo) (s : String) :
    (applySexIfUnset info s).outfit_id = info.outfit_id := by
  unfold applySexIfUnset; split <;> rfl

@[simp] theorem applySexIfUnset_outfit_name (info : OutfitInfo) (s : String) :
    (applySexIfUnset info s).outfit_name = info.outfit_name := by
  unfold applySexIfUnset; split <;> rfl

theorem ordinalFallback_addons (xo : OrderedLists) (info : OutfitInfo)
    (lt : Int) : (ordinalFallback xo info lt).addons = info.addons := by
  unfold ordinalFallback; split <;> rfl

theorem ordinalFallback_outfit_id_isSome (xo : OrderedLists) (info : OutfitInfo)
    (lt : Int) : ((ordinalFallback xo info lt).outfit_id).isSome = true := by
  unfold ordinalFallback; split <;> rfl

theorem normalize_gender_ne_empty (o : Option String) :
    normalize_gender o ≠ some "" := by
  cases o with
  | none => simp [normalize_gender]
  | some f =>
      simp only [normalize_gender]
      split_ifs <;> simp

/-! ## C7 -/

/-- C7: decoding `https://x/Outfiter?o=130&c1=19&c2=86&a1=1` and fusing the
result with an empty template block yields exactly lookTypeId 130, head 19,
body 86, addon mask 1, and no gender, legs or feet fields. -/
theorem end_to_end_basic_url :
    fuseTemplate (parse_outfiter_url "https://x/Outfiter?o=130&c1=19&c2=86&a1=1")
        (parse_outfitter_template "") =
      { type := some 130, head := some 19, body := some 86, legs := none,
        feet := none, addons := some 1, sex := none, outfit_id := none,
        outfit_name := none } := by decide

/-! ## C6 -/

/-- C6: in the query-string decoder, presence of `fm` (any value) forces
female; otherwise a present `f` is mapped through `normalize_gender`
(a value starting with `f` gives female, with `m` male, anything else leaves
the gender absent); with neither key the gender is absent. -/
theorem gender_query_resolution (url : String) :
    (qsHas (parse_qs (urlQuery url)) "fm" = true →
      (parse_outfiter_url url).sex = some "female") ∧
    (qsHas (parse_qs (urlQuery url)) "fm" = false →
      qsHas (parse_qs (urlQuery url)) "f" = true →
      (parse_outfiter_url url).sex =
        normalize_gender (qsFirst (parse_qs (urlQuery url)) "f")) ∧
    (qsHas (parse_qs (urlQuery url)) "fm" = false →
      qsHas (parse_qs (urlQuery url)) "f" = false →
      (parse_outfiter_url url).sex = none) ∧
    (∀ v : String, v ≠ "" →
      normalize_gender (some v) =
        (if strStarts (strLower (strTrim v)) "f" then some "female"
         else if strStarts (strLower (strTrim v)) "m" then some "male"
         else none)) := by
  refine ⟨?_, ?_, ?_, ?_⟩
  · intro h1
    simp [parse_outfiter_url, h1]
  · intro h1 h2
    have hne := normalize_gender_ne_empty (qsFirst (parse_qs (urlQuery url)) "f")
    simp only [parse_outfiter_url, h1, h2, Bool.false_eq_true, if_false, if_true]
    cases hg : normalize_gender (qsFirst (parse_qs (urlQuery url)) "f") with
    | none => simp
    | some s =>
        rw [hg] at hne
        simp only []
        split
        · exact absurd (by simpa using hne) (by simp_all)
        · rfl
  · intro h1 h2
    simp [parse_outfiter_url, h1, h2]
  · intro v hv
    simp [normalize_gender, hv]

/-- Witness for C6 at concrete URLs. -/
theorem gender_query_resolution_witness :
    qsHas (parse_qs (urlQuery "https://x/a?fm=x&f=male")) "fm" = true ∧
    (parse_outfiter_url "https://x/a?fm=x&f=male").sex = some "female" :=
  ⟨by decide, (gender_query_resolution "https://x/a?fm=x&f=male").1 (by decide)⟩

/-! ## C1 -/

/-- C1: in the resolution engine, with a known lookType, the canonical index
is consulted first (its name and catalogue id are copied whenever it has an
entry), the reference-catalogue direct index only when the canonical index
has no entry, and the ordinal heuristic only when neither matched; when both
sources hold the lookType with different names, the resolved name is the
canonical one.  `processRow` stores exactly this resolved descriptor, so the
stored `outfit_name` is the canonical name in that situation. -/
theorem resolution_precedence (lm : Int → Option LookupEntry)
    (xl : Int → Option XmlInfo) (xo : OrderedLists) (info : OutfitInfo)
    (lt : Int) (hlt : info.type = some lt) :
    (∀ e, lm lt = some e →
      (resolveLooktype lm xl xo info).outfit_name = some e.outfit_name ∧
      (resolveLooktype lm xl xo info).outfit_id = some e.outfit_id) ∧
    (lm lt = none → ∀ fb, xl lt = some fb →
      (resolveLooktype lm xl xo info).outfit_name = some fb.outfit_name ∧
      (resolveLooktype lm xl xo info).outfit_id = some lt) ∧
    (lm lt = none → xl lt = none →
      resolveLooktype lm xl xo info = ordinalFallback xo info lt) ∧
    (∀ e fb, lm lt = some e → xl lt = some fb →
      e.outfit_name ≠ fb.outfit_name →
      (resolveLooktype lm xl xo info).outfit_name = some e.outfit_name) := by
  refine ⟨?_, ?_, ?_, ?_⟩
  · intro e he
    simp [resolveLooktype, hlt, he]
  · intro h0 fb hfb
    simp [resolveLooktype, hlt, h0, hfb]
  · intro h0 h1
    simp [resolveLooktype, hlt, h0, h1]
  · intro e fb he _ _
    simp [resolveLooktype, hlt, he]

/-- Canonical-index fixture for witnesses: lookType 5 is catalogue entry 7
named `Canon`. -/
def lmW : Int → Option LookupEntry :=
  fun lt => if lt = 5 then some ⟨7, "Canon", "male"⟩ else none

/-- Reference-catalogue fixture for witnesses: lookType 5 is named `Ref`. -/
def xlW : Int → Option XmlInfo :=
  fun lt => if lt = 5 then some ⟨"Ref", "female"⟩ else none

/-- Empty lookup fixtures. -/
def lmNone : Int → Option LookupEntry := fun _ => none

/-- Empty reference-catalogue fixture. -/
def xlNone : Int → Option XmlInfo := fun _ => none

/-- Empty ordered-list fixture. -/
def xoNone : OrderedLists := ⟨[], []⟩

/-- Descriptor fixture with lookType 5. -/
def infoW5 : OutfitInfo :=
  { OutfitInfo.empty with
      type := some 5
      addons := some 0 }

/-- Witness for C1: lookType 5 is in both sources with different names and
the resolved name is the canonical `Canon`, not `Ref`. -/
theorem resolution_precedence_witness :
    infoW5.type = some 5 ∧ lmW 5 = some ⟨7, "Canon", "male"⟩ ∧
    xlW 5 = some ⟨"Ref", "female"⟩ ∧
    ("Canon" : String) ≠ "Ref" ∧
    (resolveLooktype lmW xlW xoNone infoW5).outfit_name = some "Canon" :=
  ⟨by decide, by decide, by decide, by decide,
   (resolution_precedence lmW xlW xoNone infoW5 5 (by decide)).2.2.2
     ⟨7, "Canon", "male"⟩ ⟨"Ref", "female"⟩ (by decide) (by decide) (by decide)⟩

/-! ## C2 -/

/-- C2: when neither the canonical nor the reference-catalogue direct index
matched, and the lookType read as a zero-based position is in range for the
ordered list of the already-known gender (female when unknown), the engine
replaces the lookType with the entry's actual lookType, sets the catalogue
outfit id to that same value, copies the entry's display name and sets the
gender to the list's partition. -/
theorem ordinal_heuristic_in_range (lm : Int → Option LookupEntry)
    (xl : Int → Option XmlInfo) (xo : OrderedLists) (info : OutfitInfo)
    (lt mapped_lt : Int) (mi : XmlInfo)
    (hlt : info.type = some lt) (hlm : lm lt = none) (hxl : xl lt = none)
    (hpos : 0 ≤ lt)
    (hentry : (orderedGet xo (sexKeyOf info.sex)).get? lt.toNat =
      some (mapped_lt, mi)) :
    resolveLooktype lm xl xo info =
      { info with
          type := some mapped_lt
          outfit_id := some mapped_lt
          outfit_name := some mi.outfit_name
          sex := some (sexKeyOf info.sex) } := by
  have hentry' : (orderedGet xo (sexKeyOf info.sex))[lt.toNat]? =
      some (mapped_lt, mi) := by
    rw [← List.get?_eq_getElem?]; exact hentry
  simp [resolveLooktype, ordinalFallback, hlt, hlm, hxl, hpos, hentry']

/-- Ordered-list fixture of the C2 scenario: female list `[(100, A), (200, B)]`,
male list `[(300, C)]`. -/
def xoW : OrderedLists :=
  ⟨[(100, ⟨"A", "female"⟩), (200, ⟨"B", "female"⟩)], [(300, ⟨"C", "male"⟩)]⟩

/-- Row-descriptor fixture of the C2 scenario: unresolved lookType 1, known
female gender. -/
def infoW1 : OutfitInfo :=
  { OutfitInfo.empty with
      type := some 1
      sex := some "female"
      addons := some 0 }

/-- Witness for C2: exactly the claim's scenario; the resolved lookType is
200 and the name `B`. -/
theorem ordinal_heuristic_in_range_witness :
    infoW1.type = some 1 ∧ lmNone 1 = none ∧ xlNone 1 = none ∧
    (0 : Int) ≤ 1 ∧
    (orderedGet xoW (sexKeyOf infoW1.sex)).get? (1 : Int).toNat =
      some (200, ⟨"B", "female"⟩) ∧
    resolveLooktype lmNone xlNone xoW infoW1 =
      { infoW1 with
          type := some 200
          outfit_id := some 200
          outfit_name := some "B"
          sex := some (sexKeyOf infoW1.sex) } :=
  ⟨by decide, by decide, by decide, by decide, by decide,
   ordinal_heuristic_in_range lmNone xlNone xoW infoW1 1 200 ⟨"B", "female"⟩
     (by decide) (by decide) (by decide) (by decide) (by decide)⟩

/-! ## C3 -/

/-- C3: when the lookType is known but no canonical match, no
reference-catalogue match and no in-range ordinal position exists, the stored
descriptor only gains `outfit_id := looktype` (the raw value); moreover
whatever the lookup sources are, a descriptor with a known lookType always
leaves the resolution with `outfit_id` present. -/
theorem raw_looktype_fallback (lm : Int → Option LookupEntry)
    (xl : Int → Option XmlInfo) (xo : OrderedLists) (info : OutfitInfo)
    (lt : Int) (hlt : info.type = some lt) (hlm : lm lt = none)
    (hxl : xl lt = none)
    (hout : ¬ (0 ≤ lt ∧
      lt.toNat < (orderedGet xo (sexKeyOf info.sex)).length)) :
    resolveLooktype lm xl xo info = { info with outfit_id := some lt } ∧
    ∀ (lm' : Int → Option LookupEntry) (xl' : Int → Option XmlInfo)
      (xo' : OrderedLists),
      ((resolveLooktype lm' xl' xo' info).outfit_id).isSome = true := by
  constructor
  · by_cases hp : 0 ≤ lt
    · have hlen : (orderedGet xo (sexKeyOf info.sex)).length ≤ lt.toNat := by
        rcases Nat.lt_or_ge lt.toNat (orderedGet xo (sexKeyOf info.sex)).length
          with hlt' | hge
        · exact absurd ⟨hp, hlt'⟩ hout
        · exact hge
      have hnone : (orderedGet xo (sexKeyOf info.sex))[lt.toNat]? = none := by
        rw [← List.get?_eq_getElem?]; exact List.get?_eq_none.mpr hlen
      simp [resolveLooktype, ordinalFallback, hlt, hlm, hxl, hp, hnone]
    · simp [resolveLooktype, ordinalFallback, hlt, hlm, hxl, hp]
  · intro lm' xl' xo'
    cases hl : lm' lt with
    | some e => simp [resolveLooktype, hlt, hl]
    | none =>
        cases hx : xl' lt with
        | some fb => simp [resolveLooktype, hlt, hl, hx]
        | none =>
            simp only [resolveLooktype, hlt, hl, hx]
            exact ordinalFallback_outfit_id_isSome xo' info lt

/-- Descriptor fixture with lookType 9 and no gender. -/
def infoW9 : OutfitInfo :=
  { OutfitInfo.empty with
      type := some 9
      addons := some 0 }

/-- Witness for C3: lookType 9 misses every source and position 9 is out of
range of the empty ordered lists, so only the raw `outfit_id` is stored. -/
theorem raw_looktype_fallback_witness :
    infoW9.type = some 9 ∧ lmNone 9 = none ∧ xlNone 9 = none ∧
    ¬ ((0 : Int) ≤ 9 ∧
      (9 : Int).toNat < (orderedGet xoNone (sexKeyOf infoW9.sex)).length) ∧
    (resolveLooktype lmNone xlNone xoNone infoW9 =
        { infoW9 with outfit_id := some 9 } ∧
      ∀ (lm' : Int → Option LookupEntry) (xl' : Int → Option XmlInfo)
        (xo' : OrderedLists),
        ((resolveLooktype lm' xl' xo' infoW9).outfit_id).isSome = true) :=
  ⟨by decide, by decide, by decide, by decide,
   raw_looktype_fallback lmNone xlNone xoNone infoW9 9
     (by decide) (by decide) (by decide) (by decide)⟩

/-! ## C5 -/

/-- C5: a processed row stores its finished descriptor under the exact
display name with overwrite semantics (whatever was there before, the exact
name now maps to this row's descriptor); keys other than the exact name and
the alias are untouched; and when the alias differs from the exact name, an
existing alias entry is kept unchanged (never overwritten) while a free,
nonempty alias receives the very same descriptor value. -/
theorem storage_semantics (lm : Int → Option LookupEntry)
    (xl : Int → Option XmlInfo) (xo : OrderedLists)
    (outfits : List (String × OutfitInfo)) (name href tmpl : String)
    (hhref : href ≠ "") :
    pyDictGet (processRow lm xl xo outfits (name, href, tmpl)) name =
      some (rowDescriptor lm xl xo href tmpl) ∧
    (∀ k, k ≠ name → k ≠ alt_name_without_npc_suffix name →
      pyDictGet (processRow lm xl xo outfits (name, href, tmpl)) k =
        pyDictGet outfits k) ∧
    (alt_name_without_npc_suffix name ≠ name →
      pyDictGet (processRow lm xl xo outfits (name, href, tmpl))
          (alt_name_without_npc_suffix name) =
        match pyDictGet outfits (alt_name_without_npc_suffix name) with
        | some x => some x
        | none =>
            if alt_name_without_npc_suffix name = "" then none
            else some (rowDescriptor lm xl xo href tmpl)) := by
  have hrow : processRow lm xl xo outfits (name, href, tmpl) =
      (if alt_name_without_npc_suffix name ≠ "" ∧
          alt_name_without_npc_suffix name ≠ name then
        pyDictSetdefault
          (pyDictSet outfits name (rowDescriptor lm xl xo href tmpl))
          (alt_name_without_npc_suffix name)
          (rowDescriptor lm xl xo href tmpl)
      else pyDictSet outfits name (rowDescriptor lm xl xo href tmpl)) := by
    simp [processRow, hhref]
  refine ⟨?_, ?_, ?_⟩
  · rw [hrow]
    split
    case isTrue hc =>
      rw [pyDictGet_setdefault_ne _ _ _ _ (fun hh => hc.2 hh.symm),
        pyDictGet_set, if_pos rfl]
    case isFalse =>
      rw [pyDictGet_set, if_pos rfl]
  · intro k hk1 hk2
    rw [hrow]
    split
    case isTrue =>
      rw [pyDictGet_setdefault_ne _ _ _ _ hk2, pyDictGet_set,
        if_neg (fun hh => hk1 hh.symm)]
    case isFalse =>
      rw [pyDictGet_set, if_neg (fun hh => hk1 hh.symm)]
  · intro halt
    rw [hrow]
    by_cases hae : alt_name_without_npc_suffix name = ""
    · rw [if_neg (by simp [hae]), pyDictGet_set,
        if_neg (fun hh => halt hh.symm)]
      cases pyDictGet outfits (alt_name_without_npc_suffix name) with
      | none => simp [hae]
      | some x => rfl
    · rw [if_pos ⟨hae, halt⟩, pyDictGet_setdefault_self, pyDictGet_set,
        if_neg (fun hh => halt hh.symm)]
      cases pyDictGet outfits (alt_name_without_npc_suffix name) with
      | none => simp [hae]
      | some x => rfl

/-- Witness for C5: the row `Akananto (NPC)` also stores the alias
`Akananto`, while the occupied alias `Bob` of an existing entry is kept. -/
theorem storage_semantics_witness :
    ("https://x/a?o=1" : String) ≠ "" ∧
    pyDictGet
        (processRow lmNone xlNone xoNone [("Bob", OutfitInfo.empty)]
          ("Akananto (NPC)", "https://x/a?o=1", ""))
        "Akananto (NPC)" =
      some (rowDescriptor lmNone xlNone xoNone "https://x/a?o=1" "") ∧
    pyDictGet
        (processRow lmNone xlNone xoNone [("Bob", OutfitInfo.empty)]
          ("Akananto (NPC)", "https://x/a?o=1", ""))
        "Akananto" =
      some (rowDescriptor lmNone xlNone xoNone "https://x/a?o=1" "") ∧
    pyDictGet
        (processRow lmNone xlNone xoNone [("Bob", OutfitInfo.empty)]
          ("Bob (NPC)", "https://x/a?o=1", ""))
        "Bob" = some OutfitInfo.empty :=
  ⟨by decide,
   (storage_semantics lmNone xlNone xoNone [("Bob", OutfitInfo.empty)]
     "Akananto (NPC)" "https://x/a?o=1" "" (by decide)).1,
   by
    have h := (storage_semantics lmNone xlNone xoNone
      [("Bob", OutfitInfo.empty)] "Akananto (NPC)" "https://x/a?o=1" ""
      (by decide)).2.2 (by decide)
    have ha : alt_name_without_npc_suffix "Akananto (NPC)" = "Akananto" := by
      decide
    rw [← ha, h]
    decide,
   by
    have h := (storage_semantics lmNone xlNone xoNone
      [("Bob", OutfitInfo.empty)] "Bob (NPC)" "https://x/a?o=1" ""
      (by decide)).2.2 (by decide)
    have hb : alt_name_without_npc_suffix "Bob (NPC)" = "Bob" := by decide
    nth_rewrite 2 [← hb]
    rw [h]
    decide⟩

/-! ## C4 -/

theorem parse_outfiter_url_addons (url : String) :
    (parse_outfiter_url url).addons =
      some ((if qsHas (parse_qs (urlQuery url)) "a1" then 1 else 0) |||
            (if qsHas (parse_qs (urlQuery url)) "a2" then 2 else 0)) := rfl

theorem fuseType_addons (info : OutfitInfo) (params : String → Option String) :
    (fuseType info params).addons = info.addons := by
  rcases ho : params "outfit" with _ | t
  · rcases hty : info.type with _ | n <;> simp [fuseType, ho, hty]
  · rcases hty : info.type with _ | n
    · by_cases ht : t = ""
      · simp [fuseType, ho, hty, ht]
      · rcases hi : pyInt? t with _ | n <;> simp [fuseType, ho, hty, ht, hi]
    · simp [fuseType, ho, hty]

theorem fuseAddons_addons (info : OutfitInfo) (params : String → Option String)
    (a : Nat) (h : info.addons = some a) :
    (fuseAddons info params).addons =
      some ((a ||| (if addonFlagSet params "addon1" then 1 else 0)) |||
            (if addonFlagSet params "addon2" then 2 else 0)) := by
  unfold fuseAddons addonFlagSet
  cases h1 : params "addon1" <;> cases h2 : params "addon2" <;>
    simp [h, h1, h2] <;> split_ifs <;> simp [h]

theorem fuseSex_addons (info : OutfitInfo) (params : String → Option String) :
    (fuseSex info params).addons = info.addons := by
  rcases hs : info.sex with _ | s
  · rcases ht : templateSex params with _ | t
    · simp [fuseSex, hs, ht]
    · by_cases hte : t = "" <;> simp [fuseSex, hs, ht, hte]
  · simp [fuseSex, hs]

theorem resolveLooktype_addons (lm : Int → Option LookupEntry)
    (xl : Int → Option XmlInfo) (xo : OrderedLists) (info : OutfitInfo) :
    (resolveLooktype lm xl xo info).addons = info.addons := by
  rcases hty : info.type with _ | lt
  · simp [resolveLooktype, hty]
  · rcases hl : lm lt with _ | e
    · rcases hx : xl lt with _ | fb
      · simp [resolveLooktype, hty, hl, hx, ordinalFallback_addons]
      · simp [resolveLooktype, hty, hl, hx]
    · simp [resolveLooktype, hty, hl]

theorem lor_absorb_left (a x y : Nat) :
    a ||| ((a ||| x) ||| y) = (a ||| x) ||| y := by
  rw [← Nat.lor_assoc, ← Nat.lor_assoc]
  simp

theorem lor_flags_le_three (a : Nat) (b1 b2 : Bool) (h : a ≤ 3) :
    (a ||| (if b1 then 1 else 0)) ||| (if b2 then 2 else 0) ≤ 3 := by
  cases b1 <;> cases b2 <;> interval_cases a <;> decide

theorem flags_lor_le_three (b1 b2 : Bool) :
    ((if b1 then 1 else 0) ||| (if b2 then 2 else 0) : Nat) ≤ 3 := by
  cases b1 <;> cases b2 <;> decide

theorem rowDescriptor_addons (lm : Int → Option LookupEntry)
    (xl : Int → Option XmlInfo) (xo : OrderedLists) (href tmpl : String) :
    ∃ m, (rowDescriptor lm xl xo href tmpl).addons = some m ∧ m ≤ 3 := by
  unfold rowDescriptor fuseTemplate
  rw [resolveLooktype_addons, fuseSex_addons,
    fuseAddons_addons _ _ _
      ((fuseType_addons _ _).trans (parse_outfiter_url_addons _))]
  exact ⟨_, rfl, lor_flags_le_three _ _ _ (flags_lor_le_three _ _)⟩

theorem mem_processRow {lm : Int → Option LookupEntry}
    {xl : Int → Option XmlInfo} {xo : OrderedLists}
    {outfits : List (String × OutfitInfo)} {row : String × String × String}
    {p : String × OutfitInfo}
    (h : p ∈ processRow lm xl xo outfits row) :
    p ∈ outfits ∨ p.2 = rowDescriptor lm xl xo row.2.1 row.2.2 := by
  by_cases hh : row.2.1 = ""
  · unfold processRow at h
    rw [if_pos hh] at h
    exact Or.inl h
  · have heq : processRow lm xl xo outfits row =
        (if alt_name_without_npc_suffix row.1 ≠ "" ∧
            alt_name_without_npc_suffix row.1 ≠ row.1 then
          pyDictSetdefault
            (pyDictSet outfits row.1 (rowDescriptor lm xl xo row.2.1 row.2.2))
            (alt_name_without_npc_suffix row.1)
            (rowDescriptor lm xl xo row.2.1 row.2.2)
        else
          pyDictSet outfits row.1 (rowDescriptor lm xl xo row.2.1 row.2.2)) := by
      simp [processRow, hh]
    rw [heq] at h
    split at h
    · rcases mem_pyDictSetdefault h with h' | h'
      · rcases mem_pyDictSet h' with h'' | h''
        · exact Or.inl h''
        · exact Or.inr (by rw [h''])
      · exact Or.inr (by rw [h'])
    · rcases mem_pyDictSet h with h' | h'
      · exact Or.inl h'
      · exact Or.inr (by rw [h'])

theorem runRows_addons_aux (lm : Int → Option LookupEntry)
    (xl : Int → Option XmlInfo) (xo : OrderedLists)
    (rows : List (String × String × String)) :
    ∀ init : List (String × OutfitInfo),
      (∀ p ∈ init, ∃ m, (p.2).addons = some m ∧ m ≤ 3) →
      ∀ p ∈ rows.foldl (processRow lm xl xo) init,
        ∃ m, (p.2).addons = some m ∧ m ≤ 3 := by
  induction rows with
  | nil => intro init hinit p hp; exact hinit p hp
  | cons r rs ih =>
      intro init hinit p hp
      refine ih (processRow lm xl xo init r) ?_ p hp
      intro q hq
      rcases mem_processRow hq with h' | h'
      · exact hinit q h'
      · rw [h']; exact rowDescriptor_addons lm xl xo r.2.1 r.2.2

/-- C4: every stored descriptor carries an `addons` mask in `{0, 1, 2, 3}`;
the decoder always emits the mask (0 when neither the `a1` nor the `a2` flag
is present); the template fusion step only ever ORs in bit 0 (for `addon1`)
and bit 1 (for `addon2`, when the key is present with an empty or truthy
value) so the mask never loses bits and stays below 4; and the resolution
step never touches it. -/
theorem addon_mask_invariant :
    (∀ url, ∃ a, (parse_outfiter_url url).addons = some a ∧ a ≤ 3) ∧
    (∀ url, qsHas (parse_qs (urlQuery url)) "a1" = false →
      qsHas (parse_qs (urlQuery url)) "a2" = false →
      (parse_outfiter_url url).addons = some 0) ∧
    (∀ info params a, info.addons = some a →
      (fuseAddons info params).addons =
        some ((a ||| (if addonFlagSet params "addon1" then 1 else 0)) |||
              (if addonFlagSet params "addon2" then 2 else 0))) ∧
    (∀ info params a b, info.addons = some a →
      (fuseTemplate info params).addons = some b →
      a ||| b = b ∧ (a ≤ 3 → b ≤ 3)) ∧
    (∀ lm xl xo info, (resolveLooktype lm xl xo info).addons = info.addons) ∧
    (∀ lm xl xo rows name d,
      pyDictGet (runRows lm xl xo rows) name = some d →
      ∃ m, d.addons = some m ∧ m ≤ 3) := by
  refine ⟨?_, ?_, ?_, ?_, resolveLooktype_addons, ?_⟩
  · intro url
    exact ⟨_, parse_outfiter_url_addons url, flags_lor_le_three _ _⟩
  · intro url h1 h2
    rw [parse_outfiter_url_addons url, h1, h2]
    rfl
  · intro info params a h
    exact fuseAddons_addons info params a h
  · intro info params a b ha hb
    rw [show fuseTemplate info params =
        fuseSex (fuseAddons (fuseType info params) params) params from rfl,
      fuseSex_addons,
      fuseAddons_addons _ params a ((fuseType_addons info params).trans ha)]
        at hb
    rcases Option.some_injective _ hb with rfl
    exact ⟨lor_absorb_left a _ _, fun h3 => lor_flags_le_three a _ _ h3⟩
  · intro lm xl xo rows name d hget
    rcases pyDictGet_mem hget with ⟨p, hp, hpd⟩
    rcases runRows_addons_aux lm xl xo rows [] (by simp) p hp with ⟨m, hm, hm3⟩
    exact ⟨m, hpd ▸ hm, hm3⟩

/-- Witness for C4: a URL with only `a1` decodes to mask 1, and a template
with `addon2` lifts it to 3 on a descriptor that already had mask 1. -/
theorem addon_mask_invariant_witness :
    ((fuseTemplate { OutfitInfo.empty with addons := some 1 }
        (parse_outfitter_template "\x7b\x7bOutfitter|addon1|addon2\x7d\x7d")).addons =
      some 3) ∧
    (1 : Nat) ||| 3 = 3 ∧ ((1 : Nat) ≤ 3 → (3 : Nat) ≤ 3) :=
  ⟨by decide,
   addon_mask_invariant.2.2.2.1
     { OutfitInfo.empty with addons := some 1 }
     (parse_outfitter_template "\x7b\x7bOutfitter|addon1|addon2\x7d\x7d")
     1 3 (by decide) (by decide)⟩

/-! ## C9 -/

theorem shopStep_skip (findItem : Int → Option Item) (bad : Offer)
    (h : (findItem bad.item_id).bind Item.client_id = none)
    (entries : List (String × Int × Int)) :
    shopStep findItem entries bad = entries := by
  unfold shopStep
  rcases hf : findItem bad.item_id with _ | item
  · rfl
  · rcases hc : item.client_id with _ | cid
    · simp [hc]
    · rw [hf] at h
      simp [hc] at h

/-- C9: in the downstream asset generator, a trade offer whose item cannot be
found, or whose `client_id` is missing, is skipped individually: the NPC's
shop lists are exactly what they would be without that offer, while the NPC's
per-character artifacts (the NPC descriptor file and the interaction script)
are still produced for every NPC. -/
theorem trade_offer_skipped (findItem : Int → Option Item) (bad : Offer)
    (pre post : List Offer) (others : Option (List Offer))
    (h : (findItem bad.item_id).bind Item.client_id = none) :
    buildShopEntries findItem (pre ++ bad :: post) =
      buildShopEntries findItem (pre ++ post) ∧
    processNpcOffers findItem ⟨some (pre ++ bad :: post), others⟩ =
      processNpcOffers findItem ⟨some (pre ++ post), others⟩ ∧
    processNpcOffers findItem ⟨others, some (pre ++ bad :: post)⟩ =
      processNpcOffers findItem ⟨others, some (pre ++ post)⟩ ∧
    ∀ npc : NpcRec, (processNpcOffers findItem npc).wrote_npc_xml = true ∧
      (processNpcOffers findItem npc).wrote_lua = true := by
  have hbuild : buildShopEntries findItem (pre ++ bad :: post) =
      buildShopEntries findItem (pre ++ post) := by
    unfold buildShopEntries
    rw [List.foldl_append, List.foldl_append, List.foldl_cons,
      shopStep_skip findItem bad h]
  refine ⟨hbuild, ?_, ?_, ?_⟩
  · simp [processNpcOffers, hbuild]
  · simp [processNpcOffers, hbuild]
  · intro npc
    exact ⟨rfl, rfl⟩

/-- Item-lookup fixture: only article 1 exists and it has no `client_id`. -/
def findItemW : Int → Option Item :=
  fun i => if i = 1 then some ⟨some "Axe", none, none⟩ else none

/-- Witness for C9: an offer whose item has no `client_id` leaves the shop
lists unchanged while the NPC and script artifacts are still produced. -/
theorem trade_offer_skipped_witness :
    (findItemW (1 : Int)).bind Item.client_id = none ∧
    (buildShopEntries findItemW ([] ++ ⟨1, "t", 5⟩ :: []) =
        buildShopEntries findItemW ([] ++ []) ∧
      processNpcOffers findItemW ⟨some ([] ++ ⟨1, "t", 5⟩ :: []), none⟩ =
        processNpcOffers findItemW ⟨some ([] ++ []), none⟩ ∧
      processNpcOffers findItemW ⟨none, some ([] ++ ⟨1, "t", 5⟩ :: [])⟩ =
        processNpcOffers findItemW ⟨none, some ([] ++ [])⟩ ∧
      ∀ npc : NpcRec, (processNpcOffers findItemW npc).wrote_npc_xml = true ∧
        (processNpcOffers findItemW npc).wrote_lua = true) :=
  ⟨by decide, trade_offer_skipped findItemW ⟨1, "t", 5⟩ [] [] none (by decide)⟩

/-! ## C10 -/

theorem loadStep_typeless (acc : List (Int × XmlInfo) × OrderedLists)
    (e : OutfitElem) (h : e.type = none) : loadStep acc e = acc := by
  rcases e with ⟨lk, nm, ty⟩
  simp only at h
  subst h
  cases nm <;> cases lk <;> rfl

/-- C10: an `outfit` element of the reference catalogue whose `type`
attribute is absent is skipped entirely — removing it from the file leaves
both the direct index and the per-gender ordered lists unchanged, so it is
in particular never treated as male. -/
theorem typeless_entry_skipped (pre post : List OutfitElem) (e : OutfitElem)
    (h : e.type = none) :
    load_outfits_xml_lookup (pre ++ e :: post) =
      load_outfits_xml_lookup (pre ++ post) := by
  unfold load_outfits_xml_lookup
  rw [List.foldl_append, List.foldl_append, List.foldl_cons,
    loadStep_typeless _ e h]

/-- Witness for C10: a typeless entry between two valid entries contributes
nothing. -/
theorem typeless_entry_skipped_witness :
    (OutfitElem.mk (some "5") (some "X") none).type = none ∧
    load_outfits_xml_lookup
        ([⟨some "2", some "A", some "0"⟩] ++
          ⟨some "5", some "X", none⟩ :: [⟨some "3", some "B", some "1"⟩]) =
      load_outfits_xml_lookup
        ([⟨some "2", some "A", some "0"⟩] ++ [⟨some "3", some "B", some "1"⟩]) :=
  ⟨rfl, typeless_entry_skipped [⟨some "2", some "A", some "0"⟩]
    [⟨some "3", some "B", some "1"⟩] ⟨some "5", some "X", none⟩ rfl⟩

/-! ## C8 -/

/-- The keep-or-skip decision of the loader, per entry: what the loader loop
keeps (and the value it keeps) for one `outfit` element.  An entry is kept
exactly when `name` is present and nonempty, `looktype` is present and parses
as an integer, and `type` is present; `type = "0"` means female, any other
present value male. -/
def keptEntry (e : OutfitElem) : Option (Int × XmlInfo) :=
  match e.name, e.looktype, e.type with
  | some name, some looktype, some sex_type =>
      if name = "" then none
      else
        match pyInt? looktype with
        | none => none
        | some lt_int =>
            some (lt_int,
              ⟨strTrim name, if sex_type = "0" then "female" else "male"⟩)
  | _, _, _ => none

theorem loadStep_eq (acc : List (Int × XmlInfo) × OrderedLists)
    (e : OutfitElem) :
    loadStep acc e =
      match keptEntry e with
      | none => acc
      | some (lt_int, info) =>
          (pyDictSet acc.1 lt_int info,
           if info.sex = "female" then
             ⟨acc.2.female ++ [(lt_int, info)], acc.2.male⟩
           else ⟨acc.2.female, acc.2.male ++ [(lt_int, info)]⟩) := by
  rcases e with ⟨lk, nm, ty⟩
  cases nm <;> cases lk <;> cases ty <;> simp only [loadStep, keptEntry]
  all_goals try rfl
  case some.some.some name looktype sex_type =>
    by_cases hn : name = ""
    · simp [hn]
    · rcases hi : pyInt? looktype with _ | lt_int <;> simp [hn, hi]

/-- The last kept entry for a given lookType ("last entry wins"). -/
def lastEntryFor (l : List (Int × XmlInfo)) (lt : Int) : Option XmlInfo :=
  (l.reverse.find? (fun p => p.1 = lt)).map (·.2)

theorem lastEntryFor_cons (k : Int) (v : XmlInfo) (rest : List (Int × XmlInfo))
    (lt : Int) :
    lastEntryFor ((k, v) :: rest) lt =
      match lastEntryFor rest lt with
      | some x => some x
      | none => if k = lt then some v else none := by
  unfold lastEntryFor
  rw [List.reverse_cons, List.find?_append]
  rcases hf : rest.reverse.find? (fun p => p.1 = lt) with _ | q
  · by_cases hk : k = lt <;> simp [hf, List.find?, hk]
  · simp [hf]

theorem load_mapping_aux (elems : List OutfitElem) :
    ∀ (acc : List (Int × XmlInfo) × OrderedLists) (lt : Int),
      pyDictGet (elems.foldl loadStep acc).1 lt =
        match lastEntryFor (elems.filterMap keptEntry) lt with
        | some x => some x
        | none => pyDictGet acc.1 lt := by
  induction elems with
  | nil => intro acc lt; simp [lastEntryFor]
  | cons e es ih =>
      intro acc lt
      rw [List.foldl_cons, ih (loadStep acc e) lt, loadStep_eq acc e]
      rcases hk : keptEntry e with _ | p
      · simp [hk]
      · rcases p with ⟨k, v⟩
        simp only [hk]
        rw [List.filterMap_cons_some hk, lastEntryFor_cons]
        rcases hl : lastEntryFor (es.filterMap keptEntry) lt with _ | x
        · by_cases hke : k = lt <;> simp [hl, hke, pyDictGet_set]
        · simp [hl]

theorem keptEntry_sex {e : OutfitElem} {k : Int} {v : XmlInfo}
    (hk : keptEntry e = some (k, v)) : v.sex = "female" ∨ v.sex = "male" := by
  rcases e with ⟨lk, nm, ty⟩
  rcases nm with _ | name
  all_goals rcases lk with _ | looktype
  all_goals rcases ty with _ | sex_type
  all_goals simp only [keptEntry] at hk
  all_goals try exact Option.noConfusion hk
  by_cases hn : name = ""
  · rw [if_pos hn] at hk
    exact Option.noConfusion hk
  · rw [if_neg hn] at hk
    rcases hi : pyInt? looktype with _ | lt_int
    · rw [hi] at hk
      exact Option.noConfusion hk
    · rw [hi] at hk
      have hv := Option.some_injective _ hk
      injection hv with h1 h2
      subst h2
      by_cases hs : sex_type = "0" <;> simp [hs]

theorem load_ordered_aux (elems : List OutfitElem) :
    ∀ acc : List (Int × XmlInfo) × OrderedLists,
      (elems.foldl loadStep acc).2.female =
        acc.2.female ++
          (elems.filterMap keptEntry).filter (fun p => p.2.sex = "female") ∧
      (elems.foldl loadStep acc).2.male =
        acc.2.male ++
          (elems.filterMap keptEntry).filter (fun p => p.2.sex = "male") := by
  induction elems with
  | nil => intro acc; simp
  | cons e es ih =>
      intro acc
      rw [List.foldl_cons, loadStep_eq acc e]
      rcases hk : keptEntry e with _ | p
      · simpa [hk] using ih acc
      · rcases p with ⟨k, v⟩
        simp only [hk]
        rw [List.filterMap_cons_some hk]
        rcases keptEntry_sex hk with hs | hs
        · have hcond : (v.sex = "female") = True := by simp [hs]
          rcases ih (pyDictSet acc.1 k v,
            ⟨acc.2.female ++ [(k, v)], acc.2.male⟩) with ⟨ihf, ihm⟩
          constructor
          · rw [if_pos hs, ihf]
            simp [List.filter_cons, hs]
          · rw [if_pos hs, ihm]
            simp [List.filter_cons, hs]
        · have hne : ¬ v.sex = "female" := by
            rw [hs]; decide
          rcases ih (pyDictSet acc.1 k v,
            ⟨acc.2.female, acc.2.male ++ [(k, v)]⟩) with ⟨ihf, ihm⟩
          constructor
          · rw [if_neg hne, ihf]
            simp [List.filter_cons, hne]
          · rw [if_neg hne, ihm]
            simp [List.filter_cons, hs]

/-- C8 counterexample: the claim's skip list (`name` missing, `looktype`
missing, `looktype` non-integer) is incomplete.  The element
`⟨looktype = "5", name = "X", type : absent⟩` satisfies all of the claim's
conditions for being indexed — its name and looktype are present and `"5"`
parses — yet the loader leaves both the direct index and the ordered lists
empty; likewise an element whose `name` attribute is present but empty is
skipped. -/
theorem loader_skip_counterexample :
    ((OutfitElem.mk (some "5") (some "X") none).name = some "X" ∧
      (OutfitElem.mk (some "5") (some "X") none).looktype = some "5" ∧
      pyInt? "5" = some 5 ∧
      load_outfits_xml_lookup [⟨some "5", some "X", none⟩] = ([], ⟨[], []⟩)) ∧
    ((OutfitElem.mk (some "6") (some "") (some "0")).name = some "" ∧
      pyInt? "6" = some 6 ∧
      load_outfits_xml_lookup [⟨some "6", some "", some "0"⟩] =
        ([], ⟨[], []⟩)) := by decide

/-- C8 (amended): the loader skips entries whose `name` is missing or empty,
whose `looktype` is missing or non-integer, or whose `type` is missing; for
the remaining entries it builds a direct index from lookTypeId to
{displayName, gender} in which the last entry wins on lookType collision, and
per-gender ordered lists whose element order equals the order of the
corresponding outfit elements in the file. -/
theorem loader_characterization (elems : List OutfitElem) :
    (∀ lt : Int,
      pyDictGet (load_outfits_xml_lookup elems).1 lt =
        lastEntryFor (elems.filterMap keptEntry) lt) ∧
    (load_outfits_xml_lookup elems).2.female =
      (elems.filterMap keptEntry).filter (fun p => p.2.sex = "female") ∧
    (load_outfits_xml_lookup elems).2.male =
      (elems.filterMap keptEntry).filter (fun p => p.2.sex = "male") := by
  refine ⟨?_, ?_, ?_⟩
  · intro lt
    rw [show load_outfits_xml_lookup elems = elems.foldl loadStep ([], ⟨[], []⟩)
      from rfl, load_mapping_aux elems ([], ⟨[], []⟩) lt]
    rcases lastEntryFor (elems.filterMap keptEntry) lt with _ | x <;> rfl
  · exact (load_ordered_aux elems ([], ⟨[], []⟩)).1.trans (by simp)
  · exact (load_ordered_aux elems ([], ⟨[], []⟩)).2.trans (by simp)

end TibiaNpc
